import Mathlib

/-!
Verification of the Odoo JSON-RPC client (`odoo_sdk.py`, class `OdooClient`).

The client's data and control flow are shallowly embedded:
JSON payloads become the inductive `JVal`; Python exceptions become
`Except`; the mutable per-instance state (`self.uid`, the requests
session) becomes explicit state records; the remote service's behaviour
(HTTP outcomes, RPC results) is passed in as explicit parameters, so
every theorem quantifies over the environment the real code would face.

Python-specific semantics are modelled faithfully where they matter:
`isinstance(x, int)` is true for `bool` values (bool subclasses int),
`if x:` uses truthiness (`0`, `False`, `""`, `None` are falsy), and
`dict` preserves insertion order.
-/

namespace OdooSDK

/-- Decoded JSON values, as produced by `Response.json()` and consumed by
`json.dumps`.  Objects are insertion-ordered key/value lists, mirroring
Python dicts. -/
inductive JVal where
  | null
  | bool (b : Bool)
  | int (n : Int)
  | str (s : String)
  | arr (xs : List JVal)
  | obj (fields : List (String × JVal))
  deriving Inhabited

/-- Python truthiness of a JSON value (`bool(x)`): `None`, `False`, `0`,
`""`, `[]` and `{}` are falsy. -/
def pyTruthy : JVal → Bool
  | .null => false
  | .bool b => b
  | .int n => n != 0
  | .str s => !s.isEmpty
  | .arr xs => !xs.isEmpty
  | .obj fs => !fs.isEmpty

/-- Python `isinstance(x, int)`: true for `int` AND for `bool`, because
`bool` is a subclass of `int` in Python. -/
def pyIsInt : JVal → Bool
  | .bool _ => true
  | .int _ => true
  | _ => false

/-- `d.get(k)` on a Python dict: the value under `k`, or `None` when the
key is absent. -/
def dictGet (d : List (String × JVal)) (k : String) : JVal :=
  (d.lookup k).getD .null

/-- `k in d` on a Python dict: key membership. -/
def dictHasKey (d : List (String × JVal)) (k : String) : Bool :=
  (d.lookup k).isSome

/-- `d[k] = v` on a Python dict: replace the value in place when the key
exists (keeping its position), otherwise append the new binding. -/
def dictSet (d : List (String × JVal)) (k : String) (v : JVal) : List (String × JVal) :=
  match d with
  | [] => [(k, v)]
  | (k0, v0) :: rest => if k0 = k then (k0, v) :: rest else (k0, v0) :: dictSet rest k v

/-- The response-dispatch step of `OdooClient._json_rpc`
(`odoo_sdk.py` lines 154-158): given the decoded JSON response, raise
`RPCError(resp["error"])` when the `"error"` key is present, otherwise
return `resp.get("result")`. -/
def json_rpc_dispatch (resp : List (String × JVal)) : Except JVal JVal :=
  match resp.lookup "error" with
  | some e => .error e
  | none => .ok (dictGet resp "result")

/-- C7: `_json_rpc` raises an RPC error carrying the remote error payload
if and only if the decoded response contains an `error` field; otherwise
it returns the response's `result` field verbatim (and `None`/null when
the `result` field is absent, mirroring `resp.get("result")`). -/
theorem c7_json_rpc_error_iff (resp : List (String × JVal)) :
    ((∃ e, json_rpc_dispatch resp = Except.error e) ↔ dictHasKey resp "error" = true)
    ∧ (∀ e, resp.lookup "error" = some e → json_rpc_dispatch resp = Except.error e)
    ∧ (resp.lookup "error" = none →
        json_rpc_dispatch resp = Except.ok (dictGet resp "result"))
    ∧ (∀ v, resp.lookup "error" = none → resp.lookup "result" = some v →
        json_rpc_dispatch resp = Except.ok v) := by
  refine ⟨?_, ?_, ?_, ?_⟩
  · constructor
    · rintro ⟨e, he⟩
      unfold json_rpc_dispatch at he
      cases h : resp.lookup "error" with
      | none => rw [h] at he; exact absurd he (by simp)
      | some x => simp [dictHasKey, h]
    · intro h
      unfold dictHasKey at h
      cases hl : resp.lookup "error" with
      | none => rw [hl] at h; simp at h
      | some e => exact ⟨e, by simp [json_rpc_dispatch, hl]⟩
  · intro e he
    simp [json_rpc_dispatch, he]
  · intro h
    simp [json_rpc_dispatch, h]
  · intro v h hv
    simp [json_rpc_dispatch, h, dictGet, hv]

/-- Witness for C7: with response `{"result": 42}` the dispatch returns
`42` verbatim; with response `{"error": "boom"}` it raises carrying the
payload. -/
theorem c7_json_rpc_error_iff_witness :
    json_rpc_dispatch [("result", JVal.int 42)] = Except.ok (JVal.int 42)
    ∧ json_rpc_dispatch [("error", JVal.str "boom")] = Except.error (JVal.str "boom") :=
  ⟨(c7_json_rpc_error_iff [("result", JVal.int 42)]).2.2.2 (JVal.int 42) rfl rfl,
   (c7_json_rpc_error_iff [("error", JVal.str "boom")]).2.1 (JVal.str "boom") rfl⟩

/-!
## Transport (`OdooClient._post`, lines 126-144)

One HTTP attempt either fails at connection level (`requests.ConnectionError`)
or yields a response with a status code; `raise_for_status` turns codes in
[400, 600) into `requests.HTTPError`.  The loop body is

    for attempt in range(3):
        try: resp = post(...); resp.raise_for_status(); return resp
        except (ConnectionError, HTTPError) as exc:
            if attempt == 2 or isinstance(exc, HTTPError) and exc.response.status_code < 500:
                raise
            wait = 2 ** attempt; sleep(wait)

The environment is an `outcomes` function giving each attempt's result.
-/

/-- The result of one underlying HTTP attempt: a connection-level failure
or a response carrying an HTTP status code. -/
inductive HttpAttempt where
  | connError
  | status (code : Nat)
  deriving Repr, DecidableEq

/-- The exceptions `_post` can propagate: `requests.ConnectionError`,
`requests.HTTPError` (with its status code), or the unreachable trailing
`RuntimeError`. -/
inductive PostError where
  | connectionError
  | httpError (code : Nat)
  | unreachableError
  deriving Repr, DecidableEq

/-- `self._sess.post(...)` followed by `resp.raise_for_status()`:
a connection failure raises `ConnectionError`; a status in [400, 600)
raises `HTTPError`; otherwise the response is returned. -/
def attemptOutcome : HttpAttempt → Except PostError Nat
  | .connError => .error .connectionError
  | .status c => if 400 ≤ c ∧ c < 600 then .error (.httpError c) else .ok c

/-- The non-final-attempt re-raise test
`isinstance(exc, HTTPError) and exc.response.status_code < 500`. -/
def fatalEarly : PostError → Bool
  | .httpError c => decide (c < 500)
  | _ => false

/-- An attempt result that `_post` treats as retryable: a connection
failure or a 5xx HTTP status. -/
def retryableAttempt : HttpAttempt → Bool
  | .connError => true
  | .status c => decide (500 ≤ c) && decide (c < 600)

/-- The exception a failing attempt raises. -/
def failureOf : HttpAttempt → PostError
  | .connError => .connectionError
  | .status c => .httpError c

/-- Observable behaviour of one `_post` call: how many POSTs were issued,
the sleeps performed between attempts, and the final outcome (the
successful attempt's status code, or the propagated exception). -/
structure PostTrace where
  requests : Nat
  sleeps : List Nat
  result : Except PostError Nat
  deriving Repr

/-- The `for attempt in range(3)` loop of `_post`, from iteration
`attempt` with `fuel` iterations remaining; exhausting the range reaches
the `raise RuntimeError("Unreachable")` line. -/
def postLoop (outcomes : Nat → HttpAttempt) : Nat → Nat → PostTrace
  | _, 0 => ⟨0, [], .error .unreachableError⟩
  | attempt, fuel + 1 =>
    match attemptOutcome (outcomes attempt) with
    | .ok c => ⟨1, [], .ok c⟩
    | .error e =>
      if attempt == 2 || fatalEarly e then ⟨1, [], .error e⟩
      else
        let rest := postLoop outcomes (attempt + 1) fuel
        ⟨1 + rest.requests, 2 ^ attempt :: rest.sleeps, rest.result⟩

/-- `OdooClient._post`, given the environment's per-attempt outcomes. -/
def post_run (outcomes : Nat → HttpAttempt) : PostTrace :=
  postLoop outcomes 0 3

lemma retryable_outcome (a : HttpAttempt) (h : retryableAttempt a = true) :
    attemptOutcome a = .error (failureOf a) ∧ fatalEarly (failureOf a) = false := by
  cases a with
  | connError => simp [attemptOutcome, failureOf, fatalEarly]
  | status c =>
    simp only [retryableAttempt, Bool.and_eq_true, decide_eq_true_eq] at h
    refine ⟨?_, ?_⟩
    · simp only [attemptOutcome, failureOf]
      rw [if_pos ⟨by omega, h.2⟩]
    · simp only [failureOf, fatalEarly, decide_eq_false_iff_not]
      omega

lemma attempt_trichotomy (a : HttpAttempt) :
    (∃ c, attemptOutcome a = .ok c ∧ retryableAttempt a = false)
    ∨ (∃ e, attemptOutcome a = .error e ∧ fatalEarly e = true ∧ retryableAttempt a = false)
    ∨ (attemptOutcome a = .error (failureOf a) ∧ fatalEarly (failureOf a) = false
        ∧ retryableAttempt a = true) := by
  cases a with
  | connError =>
    right; right
    simp [attemptOutcome, failureOf, fatalEarly, retryableAttempt]
  | status c =>
    by_cases h4 : 400 ≤ c ∧ c < 600
    · by_cases h5 : c < 500
      · right; left
        refine ⟨.httpError c, ?_, ?_, ?_⟩
        · simp only [attemptOutcome]; rw [if_pos h4]
        · simp [fatalEarly, h5]
        · simp only [retryableAttempt, Bool.and_eq_false_iff, decide_eq_false_iff_not]
          left; omega
      · right; right
        refine ⟨?_, ?_, ?_⟩
        · simp only [attemptOutcome, failureOf]; rw [if_pos h4]
        · simp only [failureOf, fatalEarly, decide_eq_false_iff_not]; omega
        · simp only [retryableAttempt, Bool.and_eq_true, decide_eq_true_eq]
          exact ⟨by omega, h4.2⟩
    · left
      refine ⟨c, ?_, ?_⟩
      · simp only [attemptOutcome]; rw [if_neg h4]
      · simp only [retryableAttempt, Bool.and_eq_false_iff, decide_eq_false_iff_not]
        omega

lemma retryable_not_4xx (a : HttpAttempt) (c : Nat) (h : retryableAttempt a = true)
    (hc : a = .status c) (h1 : 400 ≤ c) (h2 : c < 500) : False := by
  subst hc
  simp only [retryableAttempt, Bool.and_eq_true, decide_eq_true_eq] at h
  omega

/-- C1: `_post` makes at most 3 total attempts; every retried (non-final)
attempt failed with a connection error or a 5xx status; the sleeps before
resubmission follow the exponential schedule (1s after the first failure,
2s after the second); a 4xx status on the first attempt propagates
immediately as the fatal outcome of a single attempt; and a retryable
failure on all three attempts ends with the third failure propagating as
fatal after exactly 3 requests. -/
theorem c1_post_retry_policy (outcomes : Nat → HttpAttempt) :
    (post_run outcomes).requests ≤ 3
    ∧ (post_run outcomes).sleeps = [1, 2].take ((post_run outcomes).requests - 1)
    ∧ (∀ k, k < (post_run outcomes).requests - 1 → retryableAttempt (outcomes k) = true)
    ∧ (∀ c, 400 ≤ c → c < 500 → outcomes 0 = .status c →
        post_run outcomes = ⟨1, [], .error (.httpError c)⟩)
    ∧ (retryableAttempt (outcomes 0) = true → retryableAttempt (outcomes 1) = true →
        retryableAttempt (outcomes 2) = true →
        post_run outcomes = ⟨3, [1, 2], .error (failureOf (outcomes 2))⟩) := by
  rcases attempt_trichotomy (outcomes 0) with ⟨c0, h0, hr0⟩ | ⟨e0, h0, hf0, hr0⟩ | ⟨h0, hf0, hr0⟩
  · -- first attempt succeeds
    have hrun : post_run outcomes = ⟨1, [], .ok c0⟩ := by
      simp [post_run, postLoop, h0]
    refine ⟨by simp [hrun], by simp [hrun], ?_, ?_, ?_⟩
    · intro k hk; rw [hrun] at hk; exact absurd hk (by simp)
    · intro c hc1 hc2 hc3
      rw [hc3] at h0
      simp only [attemptOutcome] at h0
      rw [if_pos ⟨hc1, by omega⟩] at h0
      exact absurd h0 (by simp)
    · intro hr0x _ _
      rw [hr0x] at hr0; exact absurd hr0 (by simp)
  · -- first attempt fails fatally (4xx)
    have hrun : post_run outcomes = ⟨1, [], .error e0⟩ := by
      simp [post_run, postLoop, h0, hf0]
    refine ⟨by simp [hrun], by simp [hrun], ?_, ?_, ?_⟩
    · intro k hk; rw [hrun] at hk; exact absurd hk (by simp)
    · intro c hc1 hc2 hc3
      have he : (Except.error (PostError.httpError c) : Except PostError Nat) = Except.error e0 := by
        rw [← h0, hc3]
        simp only [attemptOutcome]
        rw [if_pos ⟨hc1, by omega⟩]
      have he2 : PostError.httpError c = e0 := by
        injection he
      rw [hrun, ← he2]
    · intro hr0x _ _
      rw [hr0x] at hr0; exact absurd hr0 (by simp)
  · -- first attempt fails retryably
    have hf0e := (retryable_outcome (outcomes 0) hr0).2
    rcases attempt_trichotomy (outcomes 1) with ⟨c1, h1, hr1⟩ | ⟨e1, h1, hf1, hr1⟩ | ⟨h1, hf1, hr1⟩
    · -- second attempt succeeds
      have hrun : post_run outcomes = ⟨2, [1], .ok c1⟩ := by
        simp [post_run, postLoop, h0, hf0e, h1]
      refine ⟨by simp [hrun], by simp [hrun], ?_, ?_, ?_⟩
      · intro k hk; rw [hrun] at hk
        simp only [] at hk
        have hk0 : k = 0 := by omega
        subst hk0; exact hr0
      · intro c hc1 hc2 hc3
        exact absurd (retryable_not_4xx (outcomes 0) c hr0 hc3 hc1 hc2) (by simp)
      · intro _ hr1x _
        rw [(retryable_outcome (outcomes 1) hr1x).1] at h1
        exact absurd h1 (by simp)
    · -- second attempt fails fatally (4xx)
      have hrun : post_run outcomes = ⟨2, [1], .error e1⟩ := by
        simp [post_run, postLoop, h0, hf0e, h1, hf1]
      refine ⟨by simp [hrun], by simp [hrun], ?_, ?_, ?_⟩
      · intro k hk; rw [hrun] at hk
        simp only [] at hk
        have hk0 : k = 0 := by omega
        subst hk0; exact hr0
      · intro c hc1 hc2 hc3
        exact absurd (retryable_not_4xx (outcomes 0) c hr0 hc3 hc1 hc2) (by simp)
      · intro _ hr1x _
        rw [hr1x] at hr1; exact absurd hr1 (by simp)
    · -- second attempt fails retryably: third attempt raises on any failure
      have hf1e := (retryable_outcome (outcomes 1) hr1).2
      cases h2 : attemptOutcome (outcomes 2) with
      | ok c2 =>
        have hrun : post_run outcomes = ⟨3, [1, 2], .ok c2⟩ := by
          simp [post_run, postLoop, h0, hf0e, h1, hf1e, h2]
        refine ⟨by simp [hrun], by simp [hrun], ?_, ?_, ?_⟩
        · intro k hk; rw [hrun] at hk
          simp only [] at hk
          rcases k with _ | k
          · exact hr0
          · rcases k with _ | k
            · exact hr1
            · omega
        · intro c hc1 hc2 hc3
          exact absurd (retryable_not_4xx (outcomes 0) c hr0 hc3 hc1 hc2) (by simp)
        · intro _ _ hr2x
          rw [(retryable_outcome (outcomes 2) hr2x).1] at h2
          exact absurd h2 (by simp)
      | error e2 =>
        have hrun : post_run outcomes = ⟨3, [1, 2], .error e2⟩ := by
          simp [post_run, postLoop, h0, hf0e, h1, hf1e, h2]
        refine ⟨by simp [hrun], by simp [hrun], ?_, ?_, ?_⟩
        · intro k hk; rw [hrun] at hk
          simp only [] at hk
          rcases k with _ | k
          · exact hr0
          · rcases k with _ | k
            · exact hr1
            · omega
        · intro c hc1 hc2 hc3
          exact absurd (retryable_not_4xx (outcomes 0) c hr0 hc3 hc1 hc2) (by simp)
        · intro _ _ hr2x
          have he := (retryable_outcome (outcomes 2) hr2x).1
          rw [h2] at he
          have : e2 = failureOf (outcomes 2) := by injection he
          rw [hrun, this]

/-- Witness for C1: three consecutive 503 responses exhaust the retry
budget — 3 requests, sleeps of 1s and 2s, fatal `HTTPError 503`. -/
theorem c1_post_retry_policy_witness :
    post_run (fun _ => HttpAttempt.status 503)
      = ⟨3, [1, 2], .error (.httpError 503)⟩ :=
  (c1_post_retry_policy (fun _ => HttpAttempt.status 503)).2.2.2.2
    (by decide) (by decide) (by decide)

/-!
## Session manager (`authenticate`, lines 161-178) and lazy authentication
(`execute_kw` lines 180-185, `execute_batch` lines 229-240)
-/

/-- The per-instance client configuration and cached uid
(`__init__`, lines 96-114): `self.uid` starts as `None`. -/
structure ClientState where
  db : String
  username : String
  api_key : String
  uid : Option JVal

/-- `OdooClient.authenticate` (lines 169-178), applied to the decoded
result of the `common.authenticate` round trip: raise
`AuthenticationError(result)` when `isinstance(result, int)` is false,
otherwise cache `self.uid = result` and return the result. -/
def authenticate_result (result : JVal) (st : ClientState) : Except JVal (JVal × ClientState) :=
  if pyIsInt result then .ok (result, ⟨st.db, st.username, st.api_key, some result⟩)
  else .error result

/-- C2 (code bug): Odoo's `common.authenticate` reports an explicit
credential rejection by returning `false`, but Python's
`isinstance(False, int)` is `True` (bool subclasses int), so the guard
`if not isinstance(result, int)` does not fire: instead of raising
`AuthenticationError` — as the method's own docstring ("Raises
AuthenticationError if credentials are invalid") and the spec require —
the client caches `self.uid = False` and returns `False`. -/
theorem c2_authenticate_accepts_false_rejection :
    authenticate_result (JVal.bool false) ⟨"db", "bot", "key", none⟩
      = Except.ok (JVal.bool false, ⟨"db", "bot", "key", some (JVal.bool false)⟩)
    ∧ pyIsInt (JVal.bool false) = true
    ∧ authenticate_result (JVal.str "wrong-typed") ⟨"db", "bot", "key", none⟩
        = Except.error (JVal.str "wrong-typed") :=
  ⟨rfl, rfl, rfl⟩

/-- Dynamic state relevant to claim C3: the cached `self.uid` and how many
times `authenticate()` has been invoked on this instance. -/
structure C3State where
  uid : Option JVal
  authCalls : Nat

/-- Truthiness of `self.uid` as tested by `self.uid or ...`:
`None` is falsy, and a cached value is tested with Python truthiness
(so `0` and `False` are falsy even though they are cached). -/
def uidTruthy : Option JVal → Bool
  | none => false
  | some v => pyTruthy v

/-- One invocation of `authenticate()` observed through `C3State`:
the invocation counter always increases; the uid is cached exactly when
the round-trip result passes `isinstance(result, int)`. -/
def auth_step (result : JVal) (st : C3State) : C3State :=
  if pyIsInt result then ⟨some result, st.authCalls + 1⟩ else ⟨st.uid, st.authCalls + 1⟩

/-- An authenticated operation issued on the client, carrying the result
the remote would hand a triggered `authenticate()` round trip.  Every
higher-level operation (CRUD, search, helpers) funnels through
`execute_kw`; `bulk_write` funnels through `execute_batch`. -/
inductive ClientOp where
  | opExecuteKw (authResult : JVal)
  | opExecuteBatch (authResult : JVal)

/-- The authentication-triggering prelude of each operation:
`execute_kw` runs `if self.uid is None: self.authenticate()` (line 182),
while `execute_batch` evaluates `self.uid or self.authenticate()`
(line 237), i.e. re-authenticates whenever the cached uid is falsy. -/
def runOp : ClientOp → C3State → C3State
  | .opExecuteKw r, st => if st.uid.isNone then auth_step r st else st
  | .opExecuteBatch r, st => if uidTruthy st.uid then st else auth_step r st

/-- A sequence of authenticated operations on one client instance. -/
def runTrace (ops : List ClientOp) (st : C3State) : C3State :=
  ops.foldl (fun s op => runOp op s) st

/-- Counterexample to C3: with the remote returning uid `0` (an `int`, so
cached), the first `execute_kw` authenticates and caches `some 0`; the
cached token then *remains set*, yet a subsequent `execute_batch`
invokes `authenticate()` again (its guard `self.uid or ...` tests
truthiness, and `0` is falsy), raising the invocation count to 2. -/
theorem c3_counterexample_reauth_on_falsy_uid :
    (runTrace [ClientOp.opExecuteKw (JVal.int 0)] ⟨none, 0⟩).uid = some (JVal.int 0)
    ∧ (runTrace [ClientOp.opExecuteKw (JVal.int 0)] ⟨none, 0⟩).authCalls = 1
    ∧ (runTrace [ClientOp.opExecuteKw (JVal.int 0),
        ClientOp.opExecuteBatch (JVal.int 0)] ⟨none, 0⟩).uid = some (JVal.int 0)
    ∧ (runTrace [ClientOp.opExecuteKw (JVal.int 0),
        ClientOp.opExecuteBatch (JVal.int 0)] ⟨none, 0⟩).authCalls = 2 :=
  ⟨rfl, rfl, rfl, rfl⟩

/-- C3 (amended): every operation that observes an absent cached token
invokes `authenticate()` before proceeding; and while the cached token
remains set to a *truthy* value (any nonzero uid), no later operation
invokes `authenticate()` again — the state is untouched by any further
operation sequence.  (`execute_batch` re-authenticates on a cached but
falsy token such as `0`, per the counterexample.) -/
theorem c3_lazy_auth_amended (op : ClientOp) (st : C3State) (ops : List ClientOp) :
    (st.uid = none → (runOp op st).authCalls = st.authCalls + 1)
    ∧ (uidTruthy st.uid = true → runOp op st = st)
    ∧ (uidTruthy st.uid = true → runTrace ops st = st) := by
  have hstep : ∀ (o : ClientOp) (s : C3State), uidTruthy s.uid = true → runOp o s = s := by
    intro o s hs
    have hnone : s.uid.isNone = false := by
      cases hu : s.uid with
      | none => rw [hu] at hs; exact absurd hs (by simp [uidTruthy])
      | some v => simp
    cases o with
    | opExecuteKw r => simp [runOp, hnone]
    | opExecuteBatch r => simp [runOp, hs]
  refine ⟨?_, hstep op st, ?_⟩
  · intro h
    cases op with
    | opExecuteKw r =>
      have hn : st.uid.isNone = true := by rw [h]; rfl
      cases hpy : pyIsInt r <;> simp [runOp, hn, auth_step, hpy]
    | opExecuteBatch r =>
      have hn : uidTruthy st.uid = false := by rw [h]; rfl
      cases hpy : pyIsInt r <;> simp [runOp, hn, auth_step, hpy]
  · intro h
    induction ops with
    | nil => rfl
    | cons o rest ih =>
      have hcons : runTrace (o :: rest) st = runTrace rest (runOp o st) := rfl
      rw [hcons, hstep o st h]
      exact ih

/-- Witness for C3 (amended): a fresh client (uid `None`) authenticates on
its first `execute_kw`; a client holding the truthy uid `5` is left
untouched by a subsequent `execute_batch`. -/
theorem c3_lazy_auth_amended_witness :
    (runOp (ClientOp.opExecuteKw (JVal.int 7)) ⟨none, 0⟩).authCalls = 0 + 1
    ∧ runTrace [ClientOp.opExecuteBatch JVal.null] ⟨some (JVal.int 5), 1⟩
        = ⟨some (JVal.int 5), 1⟩ :=
  ⟨(c3_lazy_auth_amended (ClientOp.opExecuteKw (JVal.int 7)) ⟨none, 0⟩ []).1 rfl,
   (c3_lazy_auth_amended (ClientOp.opExecuteBatch JVal.null) ⟨some (JVal.int 5), 1⟩
      [ClientOp.opExecuteBatch JVal.null]).2.2 rfl⟩

/-!
## Envelope construction (`_json_rpc`, lines 146-152) and the batch
executor (`execute_batch`, lines 229-240; `bulk_write`, lines 438-459)
-/

/-- One entry of an `execute_batch` submission (lines 230-234): a mapping
with keys `model`, `method`, `args` and `kwargs`. -/
structure BatchCall where
  model : String
  method : String
  args : List JVal
  kwargs : List (String × JVal)

/-- The JSON encoding of a batch-call entry as it rides in the
`execute` argument list. -/
def batchCallToJVal (c : BatchCall) : JVal :=
  .obj [("model", .str c.model), ("method", .str c.method),
        ("args", .arr c.args), ("kwargs", .obj c.kwargs)]

/-- The envelope `_json_rpc` posts (lines 147-152): `rid` stands for the
`random.randint(1, 1_000_000)` correlation identifier. -/
def mk_payload (service method : String) (args : List JVal) (rid : Int) : JVal :=
  .obj [("jsonrpc", .str "2.0"), ("method", .str "call"),
        ("params", .obj [("service", .str service), ("method", .str method),
                         ("args", .arr args)]),
        ("id", .int rid)]

/-- Field access on a JSON object. -/
def objField (j : JVal) (k : String) : Option JVal :=
  match j with
  | .obj fs => fs.lookup k
  | _ => none

/-- The wire payload of `authenticate()` (lines 169-173): common
namespace, args `[db, username, api_key, {}]`. -/
def authenticate_wire (st : ClientState) (rid : Int) : JVal :=
  mk_payload "common" "authenticate"
    [.str st.db, .str st.username, .str st.api_key, .obj []] rid

/-- The wire payload of `version()` (lines 464-465). -/
def version_wire (rid : Int) : JVal :=
  mk_payload "common" "version" [] rid

/-- The wire payload of `execute_kw` (lines 184-185): object namespace,
`rpc_args = [db, uid, api_key, model, method, list(args), kwargs or {}]`. -/
def execute_kw_wire (st : ClientState) (model method : String) (args : List JVal)
    (kwargs : List (String × JVal)) (rid : Int) : JVal :=
  mk_payload "object" "execute_kw"
    [.str st.db, st.uid.getD .null, .str st.api_key, .str model, .str method,
     .arr args, .obj kwargs] rid

/-- The wire payload of `execute_batch` (lines 235-240): object
namespace, method `execute`, args `[db, uid, api_key, calls]`. -/
def execute_batch_wire (st : ClientState) (uid : JVal) (calls : List BatchCall)
    (rid : Int) : JVal :=
  mk_payload "object" "execute"
    [.str st.db, uid, .str st.api_key, .arr (calls.map batchCallToJVal)] rid

/-- C8: every request posted on the wire is a JSON object with
`jsonrpc = "2.0"`, `method = "call"`, a `params` object holding
`{service, method, args}` and an integer `id`; `authenticate` and
`version` address the common (unauthenticated) namespace, while
`execute_kw` and `execute_batch` address the object (authenticated)
namespace with the database name, the cached uid and the credential
secret as the leading arguments of their argument lists. -/
theorem c8_wire_protocol (st : ClientState) (u : JVal) (model method : String)
    (args : List JVal) (kwargs : List (String × JVal)) (calls : List BatchCall)
    (rid : Int) (h : st.uid = some u) :
    (∀ (service m : String) (a : List JVal),
      objField (mk_payload service m a rid) "jsonrpc" = some (.str "2.0")
      ∧ objField (mk_payload service m a rid) "method" = some (.str "call")
      ∧ objField (mk_payload service m a rid) "id" = some (.int rid)
      ∧ objField (mk_payload service m a rid) "params"
          = some (.obj [("service", .str service), ("method", .str m), ("args", .arr a)]))
    ∧ authenticate_wire st rid
        = mk_payload "common" "authenticate"
            [.str st.db, .str st.username, .str st.api_key, .obj []] rid
    ∧ version_wire rid = mk_payload "common" "version" [] rid
    ∧ execute_kw_wire st model method args kwargs rid
        = mk_payload "object" "execute_kw"
            ([.str st.db, u, .str st.api_key]
              ++ [.str model, .str method, .arr args, .obj kwargs]) rid
    ∧ execute_batch_wire st u calls rid
        = mk_payload "object" "execute"
            ([.str st.db, u, .str st.api_key]
              ++ [.arr (calls.map batchCallToJVal)]) rid := by
  refine ⟨?_, rfl, rfl, ?_, by simp [execute_batch_wire]⟩
  · intro s m a
    refine ⟨rfl, rfl, rfl, rfl⟩
  · simp [execute_kw_wire, h]

/-- Witness for C8: a concrete `execute_kw` payload for a client whose
cached uid is `7` carries `["db", 7, "key", ...]` as leading arguments
inside the standard envelope. -/
theorem c8_wire_protocol_witness :
    objField (execute_kw_wire ⟨"db", "bot", "key", some (JVal.int 7)⟩ "project.task"
        "read" [] [] 9) "jsonrpc" = some (JVal.str "2.0")
    ∧ execute_kw_wire ⟨"db", "bot", "key", some (JVal.int 7)⟩ "project.task"
        "read" [] [] 9
      = mk_payload "object" "execute_kw"
          ([JVal.str "db", JVal.int 7, JVal.str "key"]
            ++ [JVal.str "project.task", JVal.str "read", JVal.arr [], JVal.obj []]) 9 :=
  ⟨rfl,
   (c8_wire_protocol ⟨"db", "bot", "key", some (JVal.int 7)⟩ (JVal.int 7) "project.task"
      "read" [] [] [] 9 rfl).2.2.2.1⟩

/-- `bulk_write` call construction (lines 450-458): one `write` batch
call per `{record_id: values}` entry, in the mapping's insertion order,
each carrying the single record id and its values. -/
def bulk_write_calls (model : String) (id_vals : List (Int × JVal)) : List BatchCall :=
  id_vals.map (fun rv => ⟨model, "write", [.arr [.int rv.1], rv.2], []⟩)

/-- `execute_batch` as a wire transcript: the posted requests and the
decoded result.  The remote's per-call behaviour is the responder `f`:
a batch submission yields one result per submitted call.  A falsy cached
uid triggers a preceding `authenticate` round trip
(`self.uid or self.authenticate()`, line 237). -/
def execute_batch_run (st : ClientState) (authResult : JVal) (f : BatchCall → JVal)
    (calls : List BatchCall) (rid : Int) : List JVal × Except JVal (List JVal) :=
  if uidTruthy st.uid then
    ([execute_batch_wire st (st.uid.getD .null) calls rid], .ok (calls.map f))
  else if pyIsInt authResult then
    ([authenticate_wire st rid, execute_batch_wire st authResult calls rid],
      .ok (calls.map f))
  else
    ([authenticate_wire st rid], .error authResult)

/-- `bulk_write` (lines 438-459): construct one write call per entry and
submit them through `execute_batch`. -/
def bulk_write_run (st : ClientState) (authResult : JVal) (f : BatchCall → JVal)
    (model : String) (id_vals : List (Int × JVal)) (rid : Int) :
    List JVal × Except JVal (List JVal) :=
  execute_batch_run st authResult f (bulk_write_calls model id_vals) rid

/-- C4: for an authenticated client, `bulk_write` issues exactly one
round trip — the single batch `execute` request — whose payload carries
one `write` call per mapping entry in the mapping's key order (each call
holding the single record id and its values), and returns the server's
per-call result list, whose length equals the number of entries. -/
theorem c4_bulk_write_single_round_trip (st : ClientState) (u : JVal)
    (authResult : JVal) (f : BatchCall → JVal) (model : String)
    (id_vals : List (Int × JVal)) (rid : Int)
    (h : st.uid = some u) (hu : pyTruthy u = true) :
    (bulk_write_run st authResult f model id_vals rid).1
      = [execute_batch_wire st u (bulk_write_calls model id_vals) rid]
    ∧ (bulk_write_calls model id_vals).length = id_vals.length
    ∧ (∀ i : Nat, (bulk_write_calls model id_vals)[i]?
        = (id_vals[i]?).map (fun rv => ⟨model, "write", [.arr [.int rv.1], rv.2], []⟩))
    ∧ (bulk_write_run st authResult f model id_vals rid).2
        = .ok ((bulk_write_calls model id_vals).map f)
    ∧ (∀ rs, (bulk_write_run st authResult f model id_vals rid).2 = .ok rs →
        rs.length = id_vals.length) := by
  have hut : uidTruthy st.uid = true := by rw [h]; exact hu
  have hget : st.uid.getD JVal.null = u := by rw [h]; rfl
  have h2 : (bulk_write_run st authResult f model id_vals rid).2
      = .ok ((bulk_write_calls model id_vals).map f) := by
    simp [bulk_write_run, execute_batch_run, hut]
  refine ⟨?_, by simp [bulk_write_calls], ?_, h2, ?_⟩
  · simp [bulk_write_run, execute_batch_run, hut, hget]
  · intro i
    simp [bulk_write_calls, List.getElem?_map]
  · intro rs hrs
    rw [h2] at hrs
    have : (bulk_write_calls model id_vals).map f = rs := by
      exact Except.ok.inj hrs
    rw [← this]
    simp [bulk_write_calls]

/-- Witness for C4: a two-entry mapping produces one batch request with
two write calls and a result list of length 2. -/
theorem c4_bulk_write_single_round_trip_witness :
    (bulk_write_run ⟨"db", "bot", "key", some (JVal.int 7)⟩ JVal.null (fun _ => JVal.bool true)
        "project.task" [(1, JVal.obj [("a", JVal.int 1)]), (2, JVal.obj [("b", JVal.int 2)])] 4).1
      = [execute_batch_wire ⟨"db", "bot", "key", some (JVal.int 7)⟩ (JVal.int 7)
          (bulk_write_calls "project.task"
            [(1, JVal.obj [("a", JVal.int 1)]), (2, JVal.obj [("b", JVal.int 2)])]) 4]
    ∧ (bulk_write_calls "project.task"
        [(1, JVal.obj [("a", JVal.int 1)]), (2, JVal.obj [("b", JVal.int 2)])]).length = 2 :=
  ⟨(c4_bulk_write_single_round_trip ⟨"db", "bot", "key", some (JVal.int 7)⟩ (JVal.int 7)
      JVal.null (fun _ => JVal.bool true) "project.task"
      [(1, JVal.obj [("a", JVal.int 1)]), (2, JVal.obj [("b", JVal.int 2)])] 4 rfl rfl).1,
   rfl⟩

/-!
## Pagination helper (`iter_search_read`, lines 403-413)

    offset = 0
    while True:
        records = self.search_read(model, domain, offset=offset, limit=batch, **opts)
        if not records: break
        yield from records
        offset += len(records)

The remote is scripted as a list of pages, the `i`-th page answering the
`i`-th `search_read` round trip.  The loop is only fully represented by a
script that eventually serves an empty page (otherwise the real loop
keeps issuing round trips); the theorems therefore take scripts of the
form `front ++ [[]]`.
-/

/-- `iter_search_read` against a scripted remote: returns the offsets
requested (one per round trip, in order) and the records yielded.  Each
round trip after a non-empty page advances the offset by exactly that
page's length; the first empty page terminates the loop. -/
def iter_search_read_run : List (List JVal) → Nat → List Nat × List JVal
  | [], _ => ([], [])
  | p :: rest, offset =>
    if p.isEmpty then ([offset], [])
    else
      let r := iter_search_read_run rest (offset + p.length)
      (offset :: r.1, p ++ r.2)

/-- The offsets requested when served the given pages: each round trip's
offset is the sum of the lengths of the previously served pages. -/
def pageOffsets : List (List JVal) → Nat → List Nat
  | [], _ => []
  | p :: rest, off => off :: pageOffsets rest (off + p.length)

lemma pageOffsets_length : ∀ (l : List (List JVal)) (off : Nat),
    (pageOffsets l off).length = l.length := by
  intro l
  induction l with
  | nil => intro off; rfl
  | cons p rest ih => intro off; simp [pageOffsets, ih]

lemma iter_search_read_run_concat : ∀ (front : List (List JVal)) (off : Nat),
    (∀ p ∈ front, p ≠ []) →
    iter_search_read_run (front ++ [[]]) off
      = (pageOffsets (front ++ [[]]) off, front.flatten) := by
  intro front
  induction front with
  | nil => intro off h; rfl
  | cons p rest ih =>
    intro off h
    have hp : p ≠ [] := h p (by simp)
    have hrest : ∀ q ∈ rest, q ≠ [] := fun q hq => h q (by simp [hq])
    have hpe : p.isEmpty = false := by
      cases p with
      | nil => exact absurd rfl hp
      | cons a as => rfl
    have key := ih (off + p.length) hrest
    simp only [List.cons_append, iter_search_read_run, hpe, Bool.false_eq_true,
      if_false, List.append_eq, key, pageOffsets, List.flatten_cons]

/-- C5: served any finite sequence of non-empty pages followed by an
empty page, `iter_search_read` yields exactly the concatenation of the
non-empty pages, issues one `search_read` round trip per page (including
the final empty one), and each round trip's offset advances by exactly
the length of the page the previous round trip returned. -/
theorem c5_iter_search_read_pagination (front : List (List JVal))
    (h : ∀ p ∈ front, p ≠ []) :
    iter_search_read_run (front ++ [[]]) 0
      = (pageOffsets (front ++ [[]]) 0, front.flatten)
    ∧ (pageOffsets (front ++ [[]]) 0).length = front.length + 1 := by
  refine ⟨iter_search_read_run_concat front 0 h, ?_⟩
  rw [pageOffsets_length]
  simp

/-- Witness for C5: pages of sizes [100, 100, 37, 0] produce 4 round
trips with offsets 0, 100, 200, 237 and yield exactly 237 records. -/
theorem c5_iter_search_read_pagination_witness :
    (∀ p ∈ [List.replicate 100 JVal.null, List.replicate 100 JVal.null,
        List.replicate 37 JVal.null], p ≠ [])
    ∧ iter_search_read_run
        ([List.replicate 100 JVal.null, List.replicate 100 JVal.null,
          List.replicate 37 JVal.null] ++ [[]]) 0
      = (pageOffsets
          ([List.replicate 100 JVal.null, List.replicate 100 JVal.null,
            List.replicate 37 JVal.null] ++ [[]]) 0,
         [List.replicate 100 JVal.null, List.replicate 100 JVal.null,
          List.replicate 37 JVal.null].flatten)
    ∧ pageOffsets
        ([List.replicate 100 JVal.null, List.replicate 100 JVal.null,
          List.replicate 37 JVal.null] ++ [[]]) 0 = [0, 100, 200, 237]
    ∧ ([List.replicate 100 JVal.null, List.replicate 100 JVal.null,
        List.replicate 37 JVal.null].flatten).length = 237 := by
  have hne : ∀ p ∈ [List.replicate 100 JVal.null, List.replicate 100 JVal.null,
      List.replicate 37 JVal.null], p ≠ [] := by
    intro p hp hc
    have hlen := congrArg List.length hc
    simp only [List.mem_cons, List.not_mem_nil, or_false] at hp
    rcases hp with h1 | h1 | h1 <;> rw [h1] at hlen <;> simp at hlen
  refine ⟨hne,
    (c5_iter_search_read_pagination [List.replicate 100 JVal.null,
      List.replicate 100 JVal.null, List.replicate 37 JVal.null] hne).1, rfl, rfl⟩

/-!
## Domain helpers: `move_task` (lines 270-279), the context manager
(lines 117-123) and `create_subtask` (lines 262-265)
-/

/-- Python `str.lower()` (ASCII case folding), computed on the underlying
character list so that concrete label matches evaluate by `decide`. -/
def pyLower (s : String) : String :=
  String.mk (s.data.map Char.toLower)

/-- Observable outcome of one `move_task` invocation: whether the
selection metadata was fetched (`selection_labels`, lines 192-195),
whether the unmatched-label warning was logged, and the values dict
passed to the single `update_task` call. -/
structure MoveTaskRun where
  metaFetched : Bool
  warned : Bool
  vals : List (String × JVal)

/-- `OdooClient.move_task`, with the remote's `state` selection metadata
as the environment: `sel = none` models `fields_get` metadata lacking
the field (the caught `KeyError` branch), `sel = some pairs` the
code→label mapping `selection_labels` would return.  `if state_label:`
is Python truthiness, so a `None` or empty label skips the lookup
entirely; `next(c for c, lbl in sel.items() if lbl.lower() ==
state_label.lower())` is the first case-insensitive match, whose absence
(`StopIteration`) is caught and logged. -/
def move_task_run (stageId : Int) (stateLabel : Option String)
    (sel : Option (List (String × String))) : MoveTaskRun :=
  match stateLabel with
  | none => ⟨false, false, [("stage_id", .int stageId)]⟩
  | some lbl =>
    if lbl.isEmpty then ⟨false, false, [("stage_id", .int stageId)]⟩
    else
      match sel with
      | none => ⟨true, true, [("stage_id", .int stageId)]⟩
      | some pairs =>
        match pairs.find? (fun p => pyLower p.2 == pyLower lbl) with
        | some cl => ⟨true, false, [("stage_id", .int stageId), ("state", .str cl.1)]⟩
        | none => ⟨true, true, [("stage_id", .int stageId)]⟩

/-- Counterexample to C6 as stated: for the supplied (empty) status label
`""` and metadata mapping the code `"04_done"` to the label `""` — a
case-insensitive match exists, as the third conjunct records — the code
fetches no metadata at all and issues the update without the matching
code, because `if state_label:` treats the empty string as falsy. -/
theorem c6_counterexample_empty_label :
    (move_task_run 5 (some "") (some [("04_done", "")])).metaFetched = false
    ∧ (move_task_run 5 (some "") (some [("04_done", "")])).vals
        = [("stage_id", JVal.int 5)]
    ∧ (List.find? (fun p => pyLower p.2 == pyLower "") [("04_done", "")]).isSome
        = true :=
  ⟨rfl, rfl, by decide⟩

/-- C6 (amended): for every *non-empty* supplied status label, `move_task`
fetches the task collection's `state` selection metadata; when some
code's label matches the supplied label case-insensitively, the single
update call carries both the target stage id and the first matching
code; when no code matches, or the field is absent from the metadata, it
logs a warning and issues the update with only the stage change — the
update always carries `stage_id` and the helper never raises for an
unmatched label.  (A supplied empty label behaves like no label at all:
no metadata fetch, stage-only update.) -/
theorem c6_move_task_amended (stageId : Int) (lbl : String)
    (sel : Option (List (String × String))) (h : lbl ≠ "") :
    (move_task_run stageId (some lbl) sel).metaFetched = true
    ∧ (∀ pairs cl, sel = some pairs →
        pairs.find? (fun p => pyLower p.2 == pyLower lbl) = some cl →
        (move_task_run stageId (some lbl) sel).vals
          = [("stage_id", .int stageId), ("state", .str cl.1)]
        ∧ (move_task_run stageId (some lbl) sel).warned = false)
    ∧ (∀ pairs, sel = some pairs →
        pairs.find? (fun p => pyLower p.2 == pyLower lbl) = none →
        (move_task_run stageId (some lbl) sel).vals = [("stage_id", .int stageId)]
        ∧ (move_task_run stageId (some lbl) sel).warned = true)
    ∧ (sel = none →
        (move_task_run stageId (some lbl) sel).vals = [("stage_id", .int stageId)]
        ∧ (move_task_run stageId (some lbl) sel).warned = true)
    ∧ (move_task_run stageId (some lbl) sel).vals.lookup "stage_id"
        = some (.int stageId) := by
  have hle : lbl.isEmpty = false := by
    cases hx : lbl.isEmpty
    · rfl
    · exact absurd ((String.isEmpty_iff lbl).mp hx) h
  refine ⟨?_, ?_, ?_, ?_, ?_⟩
  · cases sel with
    | none => simp [move_task_run, hle]
    | some pairs =>
      cases hf : pairs.find? (fun p => pyLower p.2 == pyLower lbl) <;>
        simp [move_task_run, hle, hf]
  · intro pairs cl hsel hf
    subst hsel
    simp [move_task_run, hle, hf]
  · intro pairs hsel hf
    subst hsel
    simp [move_task_run, hle, hf]
  · intro hsel
    subst hsel
    simp [move_task_run, hle]
  · cases sel with
    | none => simp [move_task_run, hle]
    | some pairs =>
      cases hf : pairs.find? (fun p => pyLower p.2 == pyLower lbl) <;>
        simp [move_task_run, hle, hf]

/-- Witness for C6 (amended): with metadata mapping `"04_done"` to
`"Done"`, moving with label `"done"` (case-insensitive) puts both the
stage id and the code `"04_done"` into the one update call. -/
theorem c6_move_task_amended_witness :
    (move_task_run 3 (some "done") (some [("01_in_progress", "In Progress"),
        ("04_done", "Done")])).vals
      = [("stage_id", JVal.int 3), ("state", JVal.str "04_done")]
    ∧ (move_task_run 3 (some "done") (some [("01_in_progress", "In Progress"),
        ("04_done", "Done")])).warned = false :=
  (c6_move_task_amended 3 "done"
    (some [("01_in_progress", "In Progress"), ("04_done", "Done")])
    (by decide)).2.1
    [("01_in_progress", "In Progress"), ("04_done", "Done")]
    ("04_done", "Done") rfl (by decide)

/-- Client state visible to the context-manager protocol: the cached uid,
whether the underlying `requests.Session` connection pool is open, and
how many times `authenticate()` has been invoked. -/
structure CmState where
  uid : Option JVal
  sessionOpen : Bool
  authCalls : Nat

/-- `__init__` (lines 96-114): creates the session (pool open), caches no
uid, performs no authentication round trip. -/
def client_init : CmState := ⟨none, true, 0⟩

/-- `__enter__` (lines 117-119): unconditionally calls
`self.authenticate()` — before any use of the client inside the scope. -/
def client_enter (authResult : JVal) (st : CmState) : CmState :=
  if pyIsInt authResult then ⟨some authResult, st.sessionOpen, st.authCalls + 1⟩
  else ⟨st.uid, st.sessionOpen, st.authCalls + 1⟩

/-- `__exit__` (lines 121-123): `pass` — nothing is disposed; the session
(connection pool) is deliberately kept open for re-use. -/
def client_exit (st : CmState) : CmState := st

/-- Counterexample to C9 as stated: entering and leaving the scope with
zero operations already performs one `authenticate()` round trip (so
authentication is eager at scope entry, not "on first use"), and on
scope exit the connection pool is still open (nothing is released). -/
theorem c9_counterexample_context_manager :
    (client_exit (client_enter (JVal.int 7) client_init)).authCalls = 1
    ∧ (client_exit (client_enter (JVal.int 7) client_init)).sessionOpen = true :=
  ⟨rfl, rfl⟩

/-- C9 (amended): construction performs no authentication; scope entry
(`__enter__`) eagerly invokes `authenticate()` exactly once, even when
the client is never used inside the scope; and scope exit (`__exit__`)
performs no teardown at all — the connection pool stays open and no
session-token invalidation call is made (the state is untouched). -/
theorem c9_context_manager_amended (r : JVal) (st : CmState) :
    client_init.authCalls = 0
    ∧ (client_enter r st).authCalls = st.authCalls + 1
    ∧ (client_enter r st).sessionOpen = st.sessionOpen
    ∧ client_exit st = st := by
  refine ⟨rfl, ?_, ?_, rfl⟩ <;> cases hr : pyIsInt r <;> simp [client_enter, hr]

/-- Witness for C9 (amended): a concrete scope with no operations — one
authentication at entry, state untouched at exit. -/
theorem c9_context_manager_amended_witness :
    (client_enter (JVal.int 7) client_init).authCalls = client_init.authCalls + 1
    ∧ client_exit ⟨some (JVal.int 7), true, 1⟩ = ⟨some (JVal.int 7), true, 1⟩ :=
  ⟨(c9_context_manager_amended (JVal.int 7) client_init).2.1,
   (c9_context_manager_amended (JVal.int 7) ⟨some (JVal.int 7), true, 1⟩).2.2.2⟩

/-- `OdooClient.create_subtask` as a transformer of the Python heap of
dict objects (addresses are indices): `vals = dict(values)` allocates a
shallow copy at a fresh address, `vals["parent_id"] = parent_id` mutates
only that fresh address, and the copy is the creation payload handed to
`create_task`.  Returns the new heap and the payload's address. -/
def create_subtask_heap (heap : List (List (String × JVal))) (valuesAddr : Nat)
    (parentId : Int) : List (List (String × JVal)) × Nat :=
  let values := heap.getD valuesAddr []
  (heap ++ [dictSet values "parent_id" (.int parentId)], heap.length)

/-- C10: `create_subtask` leaves the caller's values dict unchanged — the
heap cell at the caller's address holds the same entries after the call —
while the creation payload is a copy of those entries with the parent
reference added. -/
theorem c10_create_subtask_preserves_caller_values
    (heap : List (List (String × JVal))) (a : Nat) (parentId : Int)
    (h : a < heap.length) :
    ((create_subtask_heap heap a parentId).1)[a]? = heap[a]?
    ∧ ((create_subtask_heap heap a parentId).1)[(create_subtask_heap heap a parentId).2]?
        = some (dictSet (heap.getD a []) "parent_id" (.int parentId)) := by
  constructor
  · show (heap ++ [dictSet (heap.getD a []) "parent_id" (.int parentId)])[a]? = heap[a]?
    rw [List.getElem?_append, if_pos h]
  · exact List.getElem?_concat_length heap _

/-- Witness for C10: a one-dict heap; after `create_subtask` the caller's
dict still reads `{"name": "Root"}` and the payload at the fresh address
is the copy extended with `parent_id = 7`. -/
theorem c10_create_subtask_preserves_caller_values_witness :
    (0 : Nat) < ([[("name", JVal.str "Root")]] : List (List (String × JVal))).length
    ∧ ((create_subtask_heap [[("name", JVal.str "Root")]] 0 7).1)[(0 : Nat)]?
        = ([[("name", JVal.str "Root")]] : List (List (String × JVal)))[(0 : Nat)]?
    ∧ ((create_subtask_heap [[("name", JVal.str "Root")]] 0 7).1)[(create_subtask_heap [[("name", JVal.str "Root")]] 0 7).2]?
        = some (dictSet [("name", JVal.str "Root")] "parent_id" (JVal.int 7))
    ∧ dictSet [("name", JVal.str "Root")] "parent_id" (JVal.int 7)
        = [("name", JVal.str "Root"), ("parent_id", JVal.int 7)] :=
  ⟨by decide,
   (c10_create_subtask_preserves_caller_values [[("name", JVal.str "Root")]] 0 7
      (by decide)).1,
   (c10_create_subtask_preserves_caller_values [[("name", JVal.str "Root")]] 0 7
      (by decide)).2,
   rfl⟩

end OdooSDK
